import Mathlib

/-!
# stopengl: the shader / program wrapper (`gfx/shader.go`) and the frame loop (`main.go`)

Shallow embedding.

* Go `string` values are Lean strings, one character per byte; a C buffer
  (`*uint8`) is the list of its bytes, and `NUL` is the byte 0.
* `uint32` handles and enums are natural numbers, `int32` values integers
  (no arithmetic is done on either, so no wrap-around is involved).
* The OpenGL driver is an external collaborator.  Every call that reaches it
  is appended to a trace (`List GlCall`); what the driver answers is given by
  a `Driver`, a family of functions of the calls issued so far.
* A Go function that may panic returns an `Outcome`.
* Memory matters in one place: `getGlError` lets the driver write into the
  bytes of a Go string.  A string or buffer whose location matters carries its
  `Storage`: the read-only data of the program (a string literal) or memory
  allocated at run time.
* `Program.SetUniformF4`, `main`, `initGlfw`, `initOpenGL`, `printOpenGLInfo`,
  `processInput` and `framebuffer_size_callback` are not embedded.
-/

namespace Stopengl

/-! ## Outcomes of a Go call -/

/-- Result of running a piece of Go code: it returns normally, it panics with a
message, or it makes a memory access it may not (`fault`): outside a buffer it
was given, or a store into read-only memory, which ends the process. -/
inductive Outcome (α : Type) where
  | ok (a : α)
  | panic (msg : String)
  | fault
deriving DecidableEq

/-- Sequencing of outcomes: a panic or a fault ends the computation. -/
def Outcome.bind {α β : Type} (x : Outcome α) (f : α → Outcome β) : Outcome β :=
  match x with
  | .ok a => f a
  | .panic m => .panic m
  | .fault => .fault

/-! ## Go errors -/

/-- The error values that occur in `gfx`: the `*errors.errorString` that
`fmt.Errorf` builds, and the `*os.PathError` that `ioutil.ReadFile` returns. -/
inductive GoError where
  | errorString (s : String)
  | PathError (Op : String) (Path : String) (Err : String)
deriving DecidableEq

/-- The method `Error()` of an error value.  For a `PathError` it is
`Op + " " + Path + ": " + Err`. -/
def GoError.Error : GoError → String
  | .errorString s => s
  | .PathError op path err => op ++ " " ++ path ++ ": " ++ err

/-- The call `fmt.Errorf("%s: %s", a, b)`. -/
def Errorf (a b : String) : GoError :=
  .errorString (a ++ ": " ++ b)

/-! ## Strings and C buffers -/

/-- The byte 0. -/
def NUL : Char := Char.ofNat 0

/-- The string `s` written `n` times in a row. -/
def repeatString (s : String) : Nat → String
  | 0 => ""
  | n + 1 => s ++ repeatString s n

/-- Where the bytes of a Go string or of a C buffer lie: in the read-only data
of the program (a string literal) or in memory allocated at run time. -/
inductive Storage where
  | literal
  | heap
deriving DecidableEq

/-- A Go string value together with where its bytes lie. -/
structure GoString where
  text : String
  storage : Storage
deriving DecidableEq

/-- A C buffer (`*uint8`): its bytes and where they lie. -/
structure CBuffer where
  bytes : List Char
  storage : Storage
deriving DecidableEq

/-- Go `strings.Repeat`: the empty string for the count 0, the argument itself
(no copy) for the count 1, a panic on a negative count, and otherwise a newly
allocated string (empty when the argument is). -/
def strings.Repeat (s : GoString) (count : Int) : Outcome GoString :=
  if count = 0 then .ok { text := "", storage := .literal }
  else if count = 1 then .ok s
  else if count < 0 then .panic "strings: negative Repeat count"
  else if s.text.length = 0 then .ok { text := "", storage := .literal }
  else .ok { text := repeatString s.text count.toNat, storage := .heap }

/-- Go `strings.HasSuffix`. -/
def strings.HasSuffix (s suffix : String) : Bool :=
  suffix.data.isSuffixOf s.data

namespace gl

/-! ## Constants of the binding `go-gl/gl/v3.3-core/gl` -/

def FALSE : Int := 0
def COMPILE_STATUS : Nat := 0x8B81
def LINK_STATUS : Nat := 0x8B82
def INFO_LOG_LENGTH : Nat := 0x8B84
def VERTEX_SHADER : Nat := 0x8B31
def FRAGMENT_SHADER : Nat := 0x8B30
def TRIANGLES : Nat := 0x0004
def UNSIGNED_INT : Nat := 0x1405
def FLOAT : Nat := 0x1406
def COLOR_BUFFER_BIT : Nat := 0x00004000
def DEPTH_BUFFER_BIT : Nat := 0x00000100
def ARRAY_BUFFER : Nat := 0x8892
def ELEMENT_ARRAY_BUFFER : Nat := 0x8893
def STATIC_DRAW : Nat := 0x88E4

/-- Binding helper `gl.Str`: the address of the bytes of a Go string, which
has to end in a NUL byte; the binding panics when it does not.  The buffer is
the string's own memory. -/
def Str (str : GoString) : Outcome CBuffer :=
  if strings.HasSuffix str.text "\x00" then
    .ok { bytes := str.text.data, storage := str.storage }
  else .panic ("str argument missing null terminator: " ++ str.text)

/-- Binding helper `gl.GoStr`: the Go string made of the bytes before the first
NUL of a C buffer.  A buffer that holds no NUL is read past its end. -/
def GoStr (cstr : List Char) : Option String :=
  if NUL ∈ cstr then some (String.mk (cstr.takeWhile (fun c => c != NUL))) else none

/-- Binding helper `gl.Strs`: the C copies of the given Go strings, as they
are (no terminator is added); it panics when given none. -/
def Strs (strs : List String) : Outcome (List (List Char)) :=
  if strs.length = 0 then .panic "Strs: expected at least 1 string"
  else .ok (strs.map String.data)

end gl

/-- Bytes `w` stored at the start of the buffer `buf`, giving its new
contents.  Storing nothing leaves it as it is; a store into a buffer that lies
in read-only memory, or past the end of the buffer, is `none`. -/
def storeBytes (buf : CBuffer) (w : List Char) : Option (List Char) :=
  if w.length = 0 then some buf.bytes
  else if buf.storage = Storage.literal then none
  else if w.length ≤ buf.bytes.length then some (w ++ buf.bytes.drop w.length)
  else none

/-! ## Calls that reach the driver -/

/-- A `float32` argument, kept as the decimal literal of the source
(`mantissa / 10 ^ scale`); no arithmetic is done on it. -/
structure float32 where
  mantissa : Int
  scale : Nat
deriving DecidableEq

/-- Data handed to `gl.BufferData` through `gl.Ptr`. -/
inductive BufferContents where
  | float32s (xs : List float32)
  | uint32s (xs : List Nat)
deriving DecidableEq

/-- Number of elements of a slice. -/
def BufferContents.length : BufferContents → Nat
  | .float32s xs => xs.length
  | .uint32s xs => xs.length

/-- One call into OpenGL (or, for `SwapBuffers`, into GLFW) with its
arguments.  A buffer argument is recorded with its contents at the call. -/
inductive GlCall where
  | CreateProgram
  | CreateShader (xtype : Nat)
  | ShaderSource (shader : Nat) (count : Int) (xstring : List (List Char))
      (length : Option (List Int))
  | CompileShader (shader : Nat)
  | AttachShader (program shader : Nat)
  | LinkProgram (program : Nat)
  | GetShaderiv (shader pname : Nat)
  | GetProgramiv (program pname : Nat)
  | GetShaderInfoLog (shader : Nat) (bufSize : Int) (length : Option Int)
      (infoLog : List Char)
  | GetProgramInfoLog (program : Nat) (bufSize : Int) (length : Option Int)
      (infoLog : List Char)
  | DeleteShader (shader : Nat)
  | DeleteProgram (program : Nat)
  | UseProgram (program : Nat)
  | ClearColor (red green blue alpha : float32)
  | Clear (mask : Nat)
  | GenBuffers (n : Int)
  | GenVertexArrays (n : Int)
  | BindVertexArray (array : Nat)
  | BindBuffer (target buffer : Nat)
  | BufferData (target : Nat) (size : Int) (data : BufferContents) (usage : Nat)
  | VertexAttribPointerWithOffset (index : Nat) (size : Int) (xtype : Nat)
      (normalized : Bool) (stride : Int) (offset : Nat)
  | EnableVertexAttribArray (index : Nat)
  | DrawElements (mode : Nat) (count : Int) (xtype : Nat) (indices : Nat)
  | SwapBuffers (window : Nat)
deriving DecidableEq

/-- The calls issued so far, oldest first. -/
abbrev Trace := List GlCall

/-- The driver: what it answers to a call, given the calls issued before it.
A query that writes through a pointer is given the value found there and
answers the value left there; a log query is given the buffer and answers the
bytes it stores at its start.  `AttachShaderFails` tells whether the driver
rejects an `AttachShader` call (it then only raises its error flag: the call
itself returns nothing). -/
structure Driver where
  CreateProgram : Trace → Nat
  CreateShader : Trace → Nat → Nat
  GetShaderiv : Trace → Nat → Nat → Int → Int
  GetProgramiv : Trace → Nat → Nat → Int → Int
  GetShaderInfoLog : Trace → Nat → Int → Option Int → List Char → List Char
  GetProgramInfoLog : Trace → Nat → Int → Option Int → List Char → List Char
  GenBuffers : Trace → Nat
  GenVertexArrays : Trace → Nat
  AttachShaderFails : Trace → Nat → Nat → Bool

namespace gl

/-! ## The binding's functions: each records its call and asks the driver -/

def CreateProgram (d : Driver) (t : Trace) : Nat × Trace :=
  (d.CreateProgram t, t ++ [GlCall.CreateProgram])

def CreateShader (d : Driver) (xtype : Nat) (t : Trace) : Nat × Trace :=
  (d.CreateShader t xtype, t ++ [GlCall.CreateShader xtype])

def ShaderSource (shader : Nat) (count : Int) (xstring : List (List Char))
    (length : Option (List Int)) (t : Trace) : Trace :=
  t ++ [GlCall.ShaderSource shader count xstring length]

def CompileShader (shader : Nat) (t : Trace) : Trace :=
  t ++ [GlCall.CompileShader shader]

def AttachShader (program shader : Nat) (t : Trace) : Trace :=
  t ++ [GlCall.AttachShader program shader]

def LinkProgram (program : Nat) (t : Trace) : Trace :=
  t ++ [GlCall.LinkProgram program]

def DeleteShader (shader : Nat) (t : Trace) : Trace :=
  t ++ [GlCall.DeleteShader shader]

def DeleteProgram (program : Nat) (t : Trace) : Trace :=
  t ++ [GlCall.DeleteProgram program]

def UseProgram (program : Nat) (t : Trace) : Trace :=
  t ++ [GlCall.UseProgram program]

/-- The query `gl.GetShaderiv(shader, pname, params)`: `v` is the value at
`params` on entry, the answer the value there on return. -/
def GetShaderiv (d : Driver) (shader pname : Nat) (v : Int) (t : Trace) : Int × Trace :=
  (d.GetShaderiv t shader pname v, t ++ [GlCall.GetShaderiv shader pname])

def GetProgramiv (d : Driver) (program pname : Nat) (v : Int) (t : Trace) : Int × Trace :=
  (d.GetProgramiv t program pname v, t ++ [GlCall.GetProgramiv program pname])

/-- The query `gl.GetShaderInfoLog(shader, bufSize, length, infoLog)`: the
answer is the bytes the driver stores at the start of `infoLog`. -/
def GetShaderInfoLog (d : Driver) (shader : Nat) (bufSize : Int) (length : Option Int)
    (infoLog : List Char) (t : Trace) : List Char × Trace :=
  (d.GetShaderInfoLog t shader bufSize length infoLog,
    t ++ [GlCall.GetShaderInfoLog shader bufSize length infoLog])

def GetProgramInfoLog (d : Driver) (program : Nat) (bufSize : Int) (length : Option Int)
    (infoLog : List Char) (t : Trace) : List Char × Trace :=
  (d.GetProgramInfoLog t program bufSize length infoLog,
    t ++ [GlCall.GetProgramInfoLog program bufSize length infoLog])

/-- Binding helper `gl.Ptr` on a slice: the address of its first element,
taken by reflection, which panics when the slice has no element. -/
def Ptr (data : BufferContents) : Outcome BufferContents :=
  if data.length = 0 then .panic "reflect: slice index out of range" else .ok data

def ClearColor (red green blue alpha : float32) (t : Trace) : Trace :=
  t ++ [GlCall.ClearColor red green blue alpha]

def Clear (mask : Nat) (t : Trace) : Trace :=
  t ++ [GlCall.Clear mask]

def GenBuffers (d : Driver) (n : Int) (t : Trace) : Nat × Trace :=
  (d.GenBuffers t, t ++ [GlCall.GenBuffers n])

def GenVertexArrays (d : Driver) (n : Int) (t : Trace) : Nat × Trace :=
  (d.GenVertexArrays t, t ++ [GlCall.GenVertexArrays n])

def BindVertexArray (array : Nat) (t : Trace) : Trace :=
  t ++ [GlCall.BindVertexArray array]

def BindBuffer (target buffer : Nat) (t : Trace) : Trace :=
  t ++ [GlCall.BindBuffer target buffer]

def BufferData (target : Nat) (size : Int) (data : BufferContents) (usage : Nat)
    (t : Trace) : Trace :=
  t ++ [GlCall.BufferData target size data usage]

def VertexAttribPointerWithOffset (index : Nat) (size : Int) (xtype : Nat)
    (normalized : Bool) (stride : Int) (offset : Nat) (t : Trace) : Trace :=
  t ++ [GlCall.VertexAttribPointerWithOffset index size xtype normalized stride offset]

def EnableVertexAttribArray (index : Nat) (t : Trace) : Trace :=
  t ++ [GlCall.EnableVertexAttribArray index]

def DrawElements (mode : Nat) (count : Int) (xtype : Nat) (indices : Nat) (t : Trace) : Trace :=
  t ++ [GlCall.DrawElements mode count xtype indices]

end gl

/-! ## `gfx/shader.go` -/

namespace gfx

structure Shader where
  handle : Nat
deriving DecidableEq

structure Program where
  handle : Nat
  shaders : List Shader
deriving DecidableEq

/-- The callback type `getObjIv`, over any state `σ` the callback works on:
`(handle, pname, value at the pointer on entry)` to the value left there. -/
abbrev getObjIv (σ : Type) := Nat → Nat → Int → σ → Int × σ

/-- The callback type `getObjInfoLog`: `(handle, bufSize, length, buffer)`
to the bytes stored at the start of the buffer. -/
abbrev getObjInfoLog (σ : Type) := Nat → Int → Option Int → List Char → σ → List Char × σ

/-- One invocation of a callback of `getGlError`, with the arguments it was
given (for a status query: handle, enum, value at the pointer on entry). -/
inductive CallbackCall where
  | iv (handle pname : Nat) (value : Int)
  | infoLog (handle : Nat) (bufSize : Int) (length : Option Int) (buffer : List Char)
deriving DecidableEq

/-- The status callback `f` made to write each of its invocations to a record
kept beside its state. -/
def recordIv {σ : Type} (f : getObjIv σ) : getObjIv (σ × List CallbackCall) :=
  fun handle pname v st =>
    ((f handle pname v st.1).1,
      ((f handle pname v st.1).2, st.2 ++ [CallbackCall.iv handle pname v]))

/-- The log callback `f` made to write each of its invocations to a record
kept beside its state. -/
def recordInfoLog {σ : Type} (f : getObjInfoLog σ) : getObjInfoLog (σ × List CallbackCall) :=
  fun handle bufSize length buffer st =>
    ((f handle bufSize length buffer st.1).1,
      ((f handle bufSize length buffer st.1).2,
        st.2 ++ [CallbackCall.infoLog handle bufSize length buffer]))

/-- The function `getGlError` of shader.go.  The string repeated is the
literal `"\x00"`; the log callback is handed the address `gl.Str` returns and
what it stores goes to that memory. -/
def getGlError {σ : Type} (glHandle checkTrueParam : Nat) (getObjIvFn : getObjIv σ)
    (getObjInfoLogFn : getObjInfoLog σ) (failMsg : String) (s : σ) :
    Outcome (Option GoError × σ) :=
  let (success, s1) := getObjIvFn glHandle checkTrueParam 0 s
  if success = gl.FALSE then
    let (logLength, s2) := getObjIvFn glHandle gl.INFO_LOG_LENGTH 0 s1
    (strings.Repeat { text := "\x00", storage := .literal } logLength).bind fun zeros =>
    (gl.Str zeros).bind fun log =>
    let (written, s3) := getObjInfoLogFn glHandle logLength none log.bytes s2
    match storeBytes log written with
    | none => .fault
    | some log1 =>
      match gl.GoStr log1 with
      | none => .fault
      | some text => .ok (some (Errorf failMsg text), s3)
  else
    .ok (none, s1)

def Shader.Delete (shader : Shader) (t : Trace) : Trace :=
  gl.DeleteShader shader.handle t

def Program.Delete (prog : Program) (t : Trace) : Trace :=
  gl.DeleteProgram prog.handle (prog.shaders.foldl (fun t1 shader => shader.Delete t1) t)

def Program.Attach (prog : Program) (shaders : List Shader) (t : Trace) : Program × Trace :=
  shaders.foldl
    (fun (acc : Program × Trace) shader =>
      ({ acc.1 with shaders := acc.1.shaders ++ [shader] },
        gl.AttachShader acc.1.handle shader.handle acc.2))
    (prog, t)

def Program.Use (prog : Program) (t : Trace) : Trace :=
  gl.UseProgram prog.handle t

def Program.Link (d : Driver) (prog : Program) (t : Trace) : Outcome (Option GoError × Trace) :=
  getGlError prog.handle gl.LINK_STATUS (gl.GetProgramiv d) (gl.GetProgramInfoLog d)
    "PROGRAM::LINKING_FAILURE" (gl.LinkProgram prog.handle t)

def NewProgram (d : Driver) (shaders : List Shader) (t : Trace) :
    Outcome ((Option Program × Option GoError) × Trace) :=
  let (handle, t1) := gl.CreateProgram d t
  let (prog, t2) := Program.Attach { handle := handle, shaders := [] } shaders t1
  (Program.Link d prog t2).bind fun r =>
    match r.1 with
    | some err => .ok ((none, some err), r.2)
    | none => .ok ((some prog, none), r.2)

def NewShader (d : Driver) (src : String) (sType : Nat) (t : Trace) :
    Outcome ((Option Shader × Option GoError) × Trace) :=
  let (handle, t1) := gl.CreateShader d sType t
  (gl.Strs [src ++ "\x00"]).bind fun glSrc =>
  let t2 := gl.ShaderSource handle 1 glSrc none t1
  let t3 := gl.CompileShader handle t2
  (getGlError handle gl.COMPILE_STATUS (gl.GetShaderiv d) (gl.GetShaderInfoLog d)
    "SHADER::COMPILE_FAILURE::" t3).bind fun r =>
    match r.1 with
    | some err => .ok ((none, some err), r.2)
    | none => .ok ((some { handle := handle }, none), r.2)

/-- The two steps of `ioutil.ReadFile` that can fail. -/
inductive PathOp where
  | Open
  | Read
deriving DecidableEq

def PathOp.name : PathOp → String
  | .Open => "open"
  | .Read => "read"

/-- The file system seen by `ioutil.ReadFile`: the contents of a file, or the
step that failed together with the system's reason. -/
abbrev FileSystem := String → Except (PathOp × String) String

/-- Go `ioutil.ReadFile`: a failure comes back as a `*os.PathError` naming
the step, the requested path and the reason. -/
def ReadFile (fs : FileSystem) (filename : String) : Except GoError String :=
  match fs filename with
  | .ok contents => .ok contents
  | .error (op, reason) => .error (GoError.PathError op.name filename reason)

def NewShaderFromFile (fs : FileSystem) (d : Driver) (file : String) (sType : Nat)
    (t : Trace) : Outcome ((Option Shader × Option GoError) × Trace) :=
  match ReadFile fs file with
  | .error err => .ok ((none, some err), t)
  | .ok src =>
    let (handle, t1) := gl.CreateShader d sType t
    (gl.Strs [src ++ "\x00"]).bind fun glSrc =>
    let t2 := gl.ShaderSource handle 1 glSrc none t1
    let t3 := gl.CompileShader handle t2
    (getGlError handle gl.COMPILE_STATUS (gl.GetShaderiv d) (gl.GetShaderInfoLog d)
      ("SHADER::COMPILE_FAILURE::" ++ file) t3).bind fun r =>
      match r.1 with
      | some err => .ok ((none, some err), r.2)
      | none => .ok ((some { handle := handle }, none), r.2)

/-- A program built by `Attach` calls: `Program{handle: h}` followed by one
`Attach` per entry of `calls`. -/
def attachAll (prog : Program) (calls : List (List Shader)) (t : Trace) : Program × Trace :=
  calls.foldl (fun (acc : Program × Trace) shaders => acc.1.Attach shaders acc.2) (prog, t)

end gfx

/-! ## `main.go` -/

namespace Main

def vertices : List float32 :=
  [⟨5, 1⟩, ⟨-5, 1⟩, ⟨0, 1⟩, ⟨10, 1⟩, ⟨0, 1⟩, ⟨0, 1⟩,
   ⟨-5, 1⟩, ⟨-5, 1⟩, ⟨0, 1⟩, ⟨0, 1⟩, ⟨10, 1⟩, ⟨0, 1⟩,
   ⟨0, 1⟩, ⟨5, 1⟩, ⟨0, 1⟩, ⟨0, 1⟩, ⟨0, 1⟩, ⟨10, 1⟩]

def indices : List Nat := [0, 1, 2]

/-- The method `window.SwapBuffers()` of GLFW. -/
def SwapBuffers (window : Nat) (t : Trace) : Trace :=
  t ++ [GlCall.SwapBuffers window]

def draw (vao : Nat) (window : Nat) (program : gfx.Program) (t : Trace) : Trace :=
  let t1 := gl.ClearColor ⟨2, 1⟩ ⟨3, 1⟩ ⟨3, 1⟩ ⟨10, 1⟩ t
  let t2 := gl.Clear (gl.COLOR_BUFFER_BIT ||| gl.DEPTH_BUFFER_BIT) t1
  let t3 := program.Use t2
  let t4 := gl.BindVertexArray vao t3
  let t5 := gl.DrawElements gl.TRIANGLES 6 gl.UNSIGNED_INT 0 t4
  let t6 := gl.BindVertexArray 0 t5
  SwapBuffers window t6

def makeVao (d : Driver) (points : List float32) (idxs : List Nat) (t : Trace) :
    Outcome ((Nat × Nat × Nat) × Trace) :=
  let (vbo, t1) := gl.GenBuffers d 1 t
  let (ebo, t2) := gl.GenBuffers d 1 t1
  let (vao, t3) := gl.GenVertexArrays d 1 t2
  let t4 := gl.BindVertexArray vao t3
  let t5 := gl.BindBuffer gl.ARRAY_BUFFER vbo t4
  (gl.Ptr (.float32s points)).bind fun pointsPtr =>
  let t6 := gl.BufferData gl.ARRAY_BUFFER (4 * points.length) pointsPtr gl.STATIC_DRAW t5
  let t7 := gl.BindBuffer gl.ELEMENT_ARRAY_BUFFER ebo t6
  (gl.Ptr (.uint32s idxs)).bind fun idxsPtr =>
  let t8 := gl.BufferData gl.ELEMENT_ARRAY_BUFFER (4 * idxs.length) idxsPtr gl.STATIC_DRAW t7
  let t9 := gl.VertexAttribPointerWithOffset 0 3 gl.FLOAT false (6 * 4) 0 t8
  let t10 := gl.EnableVertexAttribArray 0 t9
  let t11 := gl.VertexAttribPointerWithOffset 1 3 gl.FLOAT false (6 * 4) (3 * 4) t10
  let t12 := gl.EnableVertexAttribArray 1 t11
  .ok ((vao, vbo, ebo), t12)

end Main

/-! ## Drivers and file systems used as concrete inputs -/

/-- A driver that accepts every compile and link (status 1), hands out the
shader handle 7 and the program handle 1, and rejects an `AttachShader` of a
shader already attached to the program, as OpenGL does (INVALID_OPERATION). -/
def acceptingDriver : Driver where
  CreateProgram := fun _ => 1
  CreateShader := fun _ _ => 7
  GetShaderiv := fun _ _ _ _ => 1
  GetProgramiv := fun _ _ _ _ => 1
  GetShaderInfoLog := fun _ _ _ _ _ => []
  GetProgramInfoLog := fun _ _ _ _ _ => []
  GenBuffers := fun t => t.length + 1
  GenVertexArrays := fun t => t.length + 1
  AttachShaderFails := fun t program shader => decide (GlCall.AttachShader program shader ∈ t)

/-- A driver that rejects every compile and link (status FALSE) with the info
log `bad`: it reports the length 4 (the text and its NUL) and stores as much
of `bad\0` as the buffer size allows. -/
def rejectingDriver : Driver where
  CreateProgram := fun _ => 1
  CreateShader := fun _ _ => 7
  GetShaderiv := fun _ _ pname _ => if pname = gl.INFO_LOG_LENGTH then 4 else 0
  GetProgramiv := fun _ _ pname _ => if pname = gl.INFO_LOG_LENGTH then 4 else 0
  GetShaderInfoLog := fun _ _ bufSize _ _ => ("bad".data ++ [NUL]).take bufSize.toNat
  GetProgramInfoLog := fun _ _ bufSize _ _ => ("bad".data ++ [NUL]).take bufSize.toNat
  GenBuffers := fun t => t.length + 1
  GenVertexArrays := fun t => t.length + 1
  AttachShaderFails := fun _ _ _ => false

/-- A driver that rejects every compile and link (status FALSE) and has no
info log: it reports the length 0 and stores nothing. -/
def silentDriver : Driver where
  CreateProgram := fun _ => 1
  CreateShader := fun _ _ => 7
  GetShaderiv := fun _ _ _ _ => 0
  GetProgramiv := fun _ _ _ _ => 0
  GetShaderInfoLog := fun _ _ _ _ _ => []
  GetProgramInfoLog := fun _ _ _ _ _ => []
  GenBuffers := fun t => t.length + 1
  GenVertexArrays := fun t => t.length + 1
  AttachShaderFails := fun _ _ _ => false

/-- A driver that rejects every compile and link (status FALSE) with an empty
info log whose length it reports as 1, the terminator alone, and that stores
this terminator when the buffer size allows. -/
def terseDriver : Driver where
  CreateProgram := fun _ => 1
  CreateShader := fun _ _ => 7
  GetShaderiv := fun _ _ pname _ => if pname = gl.INFO_LOG_LENGTH then 1 else 0
  GetProgramiv := fun _ _ pname _ => if pname = gl.INFO_LOG_LENGTH then 1 else 0
  GetShaderInfoLog := fun _ _ bufSize _ _ => [NUL].take bufSize.toNat
  GetProgramInfoLog := fun _ _ bufSize _ _ => [NUL].take bufSize.toNat
  GenBuffers := fun t => t.length + 1
  GenVertexArrays := fun t => t.length + 1
  AttachShaderFails := fun _ _ _ => false

/-- A file system in which no file can be opened. -/
def emptyFileSystem : gfx.FileSystem :=
  fun _ => .error (gfx.PathOp.Open, "no such file or directory")

/-! ## Lemmas on the string helpers -/

@[simp] theorem Outcome.bind_ok {α β : Type} (a : α) (f : α → Outcome β) :
    (Outcome.ok a).bind f = f a := rfl

@[simp] theorem Outcome.bind_panic {α β : Type} (m : String) (f : α → Outcome β) :
    (Outcome.panic m : Outcome α).bind f = .panic m := rfl

@[simp] theorem Outcome.bind_fault {α β : Type} (f : α → Outcome β) :
    (Outcome.fault : Outcome α).bind f = .fault := rfl

theorem repeatString_NUL_data (n : Nat) :
    (repeatString "\x00" n).data = List.replicate n NUL := by
  induction n with
  | zero => rfl
  | succ k ih =>
    show ("\x00" ++ repeatString "\x00" k).data = List.replicate (k + 1) NUL
    rw [String.data_append, ih]
    rfl

theorem Repeat_NUL_of_two_le (n : Nat) (hn : 2 ≤ n) :
    strings.Repeat { text := "\x00", storage := .literal } (n : Int) =
      .ok { text := repeatString "\x00" n, storage := .heap } := by
  have h0 : ¬ ((n : Int) = 0) := by omega
  have h1 : ¬ ((n : Int) = 1) := by omega
  have h2 : ¬ ((n : Int) < 0) := by omega
  have h3 : ¬ ("\x00".length = 0) := by decide
  simp only [strings.Repeat, h0, h1, h2, h3, if_false, Int.toNat_ofNat]

theorem Repeat_NUL_one :
    strings.Repeat { text := "\x00", storage := .literal } 1 =
      .ok { text := "\x00", storage := .literal } := rfl

theorem Repeat_NUL_zero :
    strings.Repeat { text := "\x00", storage := .literal } 0 =
      .ok { text := "", storage := .literal } := rfl

theorem Str_NUL_literal :
    gl.Str { text := "\x00", storage := .literal } =
      .ok { bytes := [NUL], storage := .literal } := rfl

theorem Str_zeros (n : Nat) (hn : 0 < n) (st : Storage) :
    gl.Str { text := repeatString "\x00" n, storage := st } =
      .ok { bytes := List.replicate n NUL, storage := st } := by
  have hsuf : strings.HasSuffix (repeatString "\x00" n) "\x00" = true := by
    unfold strings.HasSuffix
    rw [repeatString_NUL_data, List.isSuffixOf_iff_suffix]
    obtain ⟨k, rfl⟩ : ∃ k, n = k + 1 := ⟨n - 1, by omega⟩
    refine ⟨List.replicate k NUL, ?_⟩
    rw [List.replicate_succ']
    rfl
  simp [gl.Str, hsuf, repeatString_NUL_data]

theorem storeBytes_zeros (n : Nat) (w : List Char) (hw : w.length ≤ n) :
    storeBytes { bytes := List.replicate n NUL, storage := .heap } w =
      some (w ++ List.replicate (n - w.length) NUL) := by
  cases w with
  | nil => simp [storeBytes]
  | cons a rest => simp [storeBytes] at hw ⊢; omega

theorem storeBytes_literal (bytes w : List Char) (hw : w ≠ []) :
    storeBytes { bytes := bytes, storage := .literal } w = none := by
  cases w with
  | nil => exact absurd rfl hw
  | cons a rest => simp [storeBytes]

theorem takeWhile_append_zeros (w : List Char) (k : Nat) :
    (w ++ List.replicate k NUL).takeWhile (fun c => c != NUL) =
      w.takeWhile (fun c => c != NUL) := by
  induction w with
  | nil =>
    cases k with
    | zero => rfl
    | succ j => simp [List.replicate_succ, List.takeWhile_cons]
  | cons a rest ih =>
    simp only [List.cons_append, List.takeWhile_cons, ih]

theorem GoStr_written (w : List Char) (k : Nat) (hz : NUL ∈ w ∨ 0 < k) :
    gl.GoStr (w ++ List.replicate k NUL) =
      some (String.mk (w.takeWhile (fun c => c != NUL))) := by
  have hmem : NUL ∈ w ++ List.replicate k NUL := by
    rcases hz with hz | hz
    · exact List.mem_append_left _ hz
    · exact List.mem_append_right _ (List.mem_replicate.mpr ⟨by omega, rfl⟩)
  simp only [gl.GoStr, hmem, if_true, takeWhile_append_zeros]

theorem Str_empty : gl.Str { text := "", storage := .literal } =
    .panic "str argument missing null terminator: " := by
  rfl

/-! ## Lemmas on `getGlError` -/

namespace gfx

/-- When the status query leaves a value other than FALSE, `getGlError` returns
nil right after that query. -/
theorem getGlError_of_status_ne {σ : Type} (h p : Nat) (iv : getObjIv σ)
    (lg : getObjInfoLog σ) (tag : String) (s : σ) (hs : (iv h p 0 s).1 ≠ gl.FALSE) :
    getGlError h p iv lg tag s = .ok (none, (iv h p 0 s).2) := by
  unfold getGlError
  simp [hs]

/-- When the status query leaves FALSE and the length query leaves `n ≥ 2`,
`getGlError` hands the log query `n` newly allocated NUL bytes and the size
`n`, and the result is decided by what that query stores. -/
theorem getGlError_of_log {σ : Type} (h p : Nat) (iv : getObjIv σ)
    (lg : getObjInfoLog σ) (tag : String) (s : σ) (n : Nat)
    (hs : (iv h p 0 s).1 = gl.FALSE)
    (hlen : (iv h gl.INFO_LOG_LENGTH 0 (iv h p 0 s).2).1 = (n : Int)) (hn : 2 ≤ n) :
    getGlError h p iv lg tag s =
      match storeBytes { bytes := List.replicate n NUL, storage := .heap }
        (lg h n none (List.replicate n NUL) (iv h gl.INFO_LOG_LENGTH 0 (iv h p 0 s).2).2).1 with
      | none => .fault
      | some log1 =>
        match gl.GoStr log1 with
        | none => .fault
        | some text => .ok (some (Errorf tag text),
            (lg h n none (List.replicate n NUL)
              (iv h gl.INFO_LOG_LENGTH 0 (iv h p 0 s).2).2).2) := by
  unfold getGlError
  simp [hs, hlen, Repeat_NUL_of_two_le n hn, Str_zeros n (by omega)]

/-- When the status query leaves FALSE and the length query leaves 0,
`getGlError` panics in `gl.Str`: the empty string has no NUL at its end. -/
theorem getGlError_of_empty_log {σ : Type} (h p : Nat) (iv : getObjIv σ)
    (lg : getObjInfoLog σ) (tag : String) (s : σ)
    (hs : (iv h p 0 s).1 = gl.FALSE)
    (hlen : (iv h gl.INFO_LOG_LENGTH 0 (iv h p 0 s).2).1 = 0) :
    getGlError h p iv lg tag s = .panic "str argument missing null terminator: " := by
  unfold getGlError
  simp [hs, hlen, Repeat_NUL_zero, Str_empty]

/-- When the status query leaves FALSE and the length query leaves 1, the
buffer handed to the log query is the literal `"\x00"` itself, and a log query
that stores anything there (its terminator, say) ends the process. -/
theorem getGlError_of_one_byte_log {σ : Type} (h p : Nat) (iv : getObjIv σ)
    (lg : getObjInfoLog σ) (tag : String) (s : σ)
    (hs : (iv h p 0 s).1 = gl.FALSE)
    (hlen : (iv h gl.INFO_LOG_LENGTH 0 (iv h p 0 s).2).1 = 1)
    (hw : (lg h 1 none [NUL] (iv h gl.INFO_LOG_LENGTH 0 (iv h p 0 s).2).2).1 ≠ []) :
    getGlError h p iv lg tag s = .fault := by
  unfold getGlError
  simp [hs, hlen, Repeat_NUL_one, Str_NUL_literal, storeBytes_literal _ _ hw]

/-- Whatever the callbacks do, `getGlError` returns nil only after a status
other than FALSE. -/
theorem getGlError_nil_status {σ : Type} (h p : Nat) (iv : getObjIv σ)
    (lg : getObjInfoLog σ) (tag : String) (s s1 : σ)
    (hr : getGlError h p iv lg tag s = .ok (none, s1)) : (iv h p 0 s).1 ≠ gl.FALSE := by
  intro hs
  unfold getGlError at hr
  simp only [hs, if_true] at hr
  cases hrep : strings.Repeat { text := "\x00", storage := .literal }
      (iv h gl.INFO_LOG_LENGTH 0 (iv h p 0 s).2).1 with
  | panic m => simp [hrep] at hr
  | fault => simp [hrep] at hr
  | ok zeros =>
    cases hstr : gl.Str zeros with
    | panic m => simp [hrep, hstr] at hr
    | fault => simp [hrep, hstr] at hr
    | ok log =>
      simp only [hrep, hstr, Outcome.bind_ok] at hr
      split at hr
      · exact Outcome.noConfusion hr
      · split at hr
        · exact Outcome.noConfusion hr
        · simp at hr

/-- When the status query leaves FALSE, the length query leaves `n ≥ 2` and the
log query stores `w` inside the buffer of `n` NUL bytes it is handed, leaving
a NUL in it, `getGlError` returns the tag, `": "` and the bytes of `w` before
its first NUL. -/
theorem getGlError_of_written {σ : Type} (h p : Nat) (iv : getObjIv σ)
    (lg : getObjInfoLog σ) (tag : String) (s s1 s2 s3 : σ) (n : Nat) (w : List Char)
    (h1 : iv h p 0 s = (gl.FALSE, s1))
    (h2 : iv h gl.INFO_LOG_LENGTH 0 s1 = ((n : Int), s2))
    (hn : 2 ≤ n)
    (h3 : lg h (n : Int) none (List.replicate n NUL) s2 = (w, s3))
    (hw : w.length ≤ n) (hz : NUL ∈ w ∨ w.length < n) :
    getGlError h p iv lg tag s =
      .ok (some (Errorf tag (String.mk (w.takeWhile (fun c => c != NUL)))), s3) := by
  have hz2 : NUL ∈ w ∨ 0 < n - w.length := by
    rcases hz with hz | hz
    · exact Or.inl hz
    · exact Or.inr (by omega)
  rw [getGlError_of_log h p iv lg tag s n (by rw [h1]) (by rw [h1, h2]) hn]
  simp only [h1, h2, h3, storeBytes_zeros n w hw, GoStr_written w (n - w.length) hz2]

theorem Program.Attach_eq (shaders : List Shader) (prog : Program) (t : Trace) :
    prog.Attach shaders t =
      ({ handle := prog.handle, shaders := prog.shaders ++ shaders },
        t ++ shaders.map (fun sh => GlCall.AttachShader prog.handle sh.handle)) := by
  unfold Program.Attach
  induction shaders generalizing prog t with
  | nil => simp
  | cons sh rest ih =>
    rw [List.foldl_cons, ih]
    simp [gl.AttachShader]

theorem attachAll_eq (calls : List (List Shader)) (prog : Program) (t : Trace) :
    attachAll prog calls t =
      ({ handle := prog.handle, shaders := prog.shaders ++ calls.flatten },
        t ++ calls.flatten.map (fun sh => GlCall.AttachShader prog.handle sh.handle)) := by
  unfold attachAll
  induction calls generalizing prog t with
  | nil => simp
  | cons c rest ih =>
    rw [List.foldl_cons, Program.Attach_eq, ih]
    simp

theorem Program.Delete_eq (prog : Program) (t : Trace) :
    prog.Delete t =
      t ++ prog.shaders.map (fun sh => GlCall.DeleteShader sh.handle) ++
        [GlCall.DeleteProgram prog.handle] := by
  unfold Program.Delete gl.DeleteProgram
  congr 1
  generalize prog.shaders = l
  induction l generalizing t with
  | nil => simp
  | cons sh rest ih =>
    rw [List.foldl_cons, ih]
    simp [Shader.Delete, gl.DeleteShader]

theorem count_DeleteShader_map (x : Nat) (l : List Shader) :
    (l.map (fun sh => GlCall.DeleteShader sh.handle)).count (GlCall.DeleteShader x) =
      (l.map Shader.handle).count x := by
  induction l with
  | nil => rfl
  | cons sh rest ih =>
    simp only [List.map_cons, List.count_cons, ih]
    by_cases hx : sh.handle = x <;> simp [hx]

theorem count_DeleteProgram_map (x : Nat) (l : List Shader) :
    (l.map (fun sh => GlCall.DeleteShader sh.handle)).count (GlCall.DeleteProgram x) = 0 := by
  induction l with
  | nil => rfl
  | cons sh rest ih => simp [List.count_cons, ih]

end gfx

/-! ## The status / log extraction routine -/

/-- C1 (evaluation at the failing input). With a status query that leaves FALSE
(0) for the status and 0 for INFO_LOG_LENGTH, `getGlError` does not return an
error with an empty log segment: for every handle, status enum, log callback
and failure tag it panics inside `gl.Str`, which is handed the empty string
`strings.Repeat("\x00", 0)`. -/
theorem getGlError_zero_length_log_panics {σ : Type} (h p : Nat)
    (lg : gfx.getObjInfoLog σ) (tag : String) (s : σ) :
    gfx.getGlError h p (fun _ _ _ st => (0, st)) lg tag s =
      .panic "str argument missing null terminator: " :=
  gfx.getGlError_of_empty_log h p _ lg tag s rfl rfl

/-- C2. `getGlError` returns nil exactly when the value the status query leaves
is different from FALSE. For every handle, status enum, pair of callbacks, tag
and state: (1) it returns nil iff the status left is not FALSE; (2) run with
callbacks that record their invocations, it returns nil with a record holding
the status query alone (the log callback is not invoked) iff the status left
is not FALSE; (3) when the status is not FALSE the result is the same for every
log callback. -/
theorem getGlError_nil_iff_status {σ : Type} (h p : Nat) (iv : gfx.getObjIv σ)
    (lg : gfx.getObjInfoLog σ) (tag : String) (s : σ) :
    ((∃ s1, gfx.getGlError h p iv lg tag s = .ok (none, s1)) ↔ (iv h p 0 s).1 ≠ gl.FALSE) ∧
    (gfx.getGlError h p (gfx.recordIv iv) (gfx.recordInfoLog lg) tag (s, []) =
        .ok (none, ((iv h p 0 s).2, [gfx.CallbackCall.iv h p 0])) ↔
      (iv h p 0 s).1 ≠ gl.FALSE) ∧
    ((iv h p 0 s).1 ≠ gl.FALSE →
      ∀ lg2 : gfx.getObjInfoLog σ,
        gfx.getGlError h p iv lg2 tag s = gfx.getGlError h p iv lg tag s) := by
  refine ⟨⟨?_, ?_⟩, ⟨?_, ?_⟩, ?_⟩
  · rintro ⟨s1, hr⟩
    exact gfx.getGlError_nil_status h p iv lg tag s s1 hr
  · intro hs
    exact ⟨_, gfx.getGlError_of_status_ne h p iv lg tag s hs⟩
  · intro hr
    exact gfx.getGlError_nil_status h p (gfx.recordIv iv) (gfx.recordInfoLog lg) tag (s, []) _ hr
  · intro hs
    exact gfx.getGlError_of_status_ne h p (gfx.recordIv iv) (gfx.recordInfoLog lg) tag (s, []) hs
  · intro hs lg2
    rw [gfx.getGlError_of_status_ne h p iv lg2 tag s hs,
      gfx.getGlError_of_status_ne h p iv lg tag s hs]

/-- C3 (evaluation at the failing input). At the info-log length 1 `getGlError`
does not return the tag and the log. `strings.Repeat("\x00", 1)` is its
argument, the literal `"\x00"`, not a copy; `gl.Str` hands its address to the
log query; and `terseDriver`, which reports FALSE and the length 1 and stores
the terminator of its empty log, writes into read-only memory: for every
handle, tag and earlier trace the run ends in a fault, on the compile path and
on the link path alike, and no error is returned. -/
theorem getGlError_one_byte_log_faults (h : Nat) (tag : String) (t : Trace) :
    strings.Repeat { text := "\x00", storage := .literal } 1 =
      .ok { text := "\x00", storage := .literal } ∧
    gfx.getGlError h gl.COMPILE_STATUS (gl.GetShaderiv terseDriver)
      (gl.GetShaderInfoLog terseDriver) tag t = .fault ∧
    gfx.getGlError h gl.LINK_STATUS (gl.GetProgramiv terseDriver)
      (gl.GetProgramInfoLog terseDriver) tag t = .fault := by
  refine ⟨rfl, ?_, ?_⟩
  · exact gfx.getGlError_of_one_byte_log h _ _ _ tag t rfl rfl
      (List.cons_ne_nil NUL [])
  · exact gfx.getGlError_of_one_byte_log h _ _ _ tag t rfl rfl
      (List.cons_ne_nil NUL [])

/-- On failure with a log of length at least 2 `getGlError` reports the tag and
the driver log. For every tag and every length `n ≥ 2`: when the status query leaves FALSE (state `s1`),
the INFO_LOG_LENGTH query leaves `n` (state `s2`), and the log query, handed
the size `n` and a buffer of `n` NUL bytes in state `s2`, stores `w` in that
buffer (`w.length ≤ n`, a NUL left in the buffer), then `getGlError` returns
the error whose message is exactly `tag ++ ": " ++ text`, `text` being the
bytes stored up to the first NUL. Run with callbacks that record their
invocations, the record is: the status query, the INFO_LOG_LENGTH query, and
one log query with the size `n`, a nil length pointer and a buffer of exactly
`n` NUL bytes. -/
theorem getGlError_reports_tag_and_log {σ : Type} (h p : Nat) (iv : gfx.getObjIv σ)
    (lg : gfx.getObjInfoLog σ) (tag : String) (s s1 s2 s3 : σ) (n : Nat) (w : List Char)
    (h1 : iv h p 0 s = (gl.FALSE, s1))
    (h2 : iv h gl.INFO_LOG_LENGTH 0 s1 = ((n : Int), s2))
    (hn : 1 < n)
    (h3 : lg h (n : Int) none (List.replicate n NUL) s2 = (w, s3))
    (hw : w.length ≤ n) (hz : NUL ∈ w ∨ w.length < n) :
    gfx.getGlError h p iv lg tag s =
      .ok (some (GoError.errorString
        (tag ++ ": " ++ String.mk (w.takeWhile (fun c => c != NUL)))), s3) ∧
    gfx.getGlError h p (gfx.recordIv iv) (gfx.recordInfoLog lg) tag (s, []) =
      .ok (some (GoError.errorString
        (tag ++ ": " ++ String.mk (w.takeWhile (fun c => c != NUL)))),
        (s3, [gfx.CallbackCall.iv h p 0, gfx.CallbackCall.iv h gl.INFO_LOG_LENGTH 0,
          gfx.CallbackCall.infoLog h (n : Int) none (List.replicate n NUL)])) := by
  constructor
  · exact gfx.getGlError_of_written h p iv lg tag s s1 s2 s3 n w h1 h2 hn h3 hw hz
  · exact gfx.getGlError_of_written h p (gfx.recordIv iv) (gfx.recordInfoLog lg) tag (s, [])
      (s1, [gfx.CallbackCall.iv h p 0])
      (s2, [gfx.CallbackCall.iv h p 0, gfx.CallbackCall.iv h gl.INFO_LOG_LENGTH 0])
      (s3, [gfx.CallbackCall.iv h p 0, gfx.CallbackCall.iv h gl.INFO_LOG_LENGTH 0,
        gfx.CallbackCall.infoLog h (n : Int) none (List.replicate n NUL)])
      n w (by simp [gfx.recordIv, h1]) (by simp [gfx.recordIv, h2]) hn
      (by simp [gfx.recordInfoLog, h3]) hw hz

/-- Witness of `getGlError_reports_tag_and_log`: shader 7 rejected by `rejectingDriver`, whose log is `bad`
(length 4 with its NUL). The log query is handed four NUL bytes and the size 4,
and the message is `T: bad`. -/
theorem getGlError_reports_tag_and_log_witness :
    gfx.getGlError 7 gl.COMPILE_STATUS (gl.GetShaderiv rejectingDriver)
        (gl.GetShaderInfoLog rejectingDriver) "T" [] =
      .ok (some (GoError.errorString "T: bad"),
        [GlCall.GetShaderiv 7 gl.COMPILE_STATUS, GlCall.GetShaderiv 7 gl.INFO_LOG_LENGTH,
         GlCall.GetShaderInfoLog 7 4 none [NUL, NUL, NUL, NUL]]) ∧
    gfx.getGlError 7 gl.COMPILE_STATUS (gfx.recordIv (gl.GetShaderiv rejectingDriver))
        (gfx.recordInfoLog (gl.GetShaderInfoLog rejectingDriver)) "T" ([], []) =
      .ok (some (GoError.errorString "T: bad"),
        ([GlCall.GetShaderiv 7 gl.COMPILE_STATUS, GlCall.GetShaderiv 7 gl.INFO_LOG_LENGTH,
          GlCall.GetShaderInfoLog 7 4 none [NUL, NUL, NUL, NUL]],
         [gfx.CallbackCall.iv 7 gl.COMPILE_STATUS 0, gfx.CallbackCall.iv 7 gl.INFO_LOG_LENGTH 0,
          gfx.CallbackCall.infoLog 7 4 none [NUL, NUL, NUL, NUL]])) :=
  getGlError_reports_tag_and_log 7 gl.COMPILE_STATUS (gl.GetShaderiv rejectingDriver)
    (gl.GetShaderInfoLog rejectingDriver) "T" []
    [GlCall.GetShaderiv 7 gl.COMPILE_STATUS]
    [GlCall.GetShaderiv 7 gl.COMPILE_STATUS, GlCall.GetShaderiv 7 gl.INFO_LOG_LENGTH]
    [GlCall.GetShaderiv 7 gl.COMPILE_STATUS, GlCall.GetShaderiv 7 gl.INFO_LOG_LENGTH,
     GlCall.GetShaderInfoLog 7 4 none [NUL, NUL, NUL, NUL]]
    4 ("bad".data ++ [NUL]) rfl rfl (by decide) rfl (by decide) (by decide)

/-! ## Compiling a shader -/

/-- C9. A successful compile returns a Shader wrapping the new handle. For every
source text, stage kind and earlier trace: when `CreateShader` answers a
handle `h ≠ 0` and the COMPILE_STATUS query, asked after the source upload and
the compile, leaves a value other than FALSE, `NewShader` returns a nil error
and the Shader of handle `h`. The calls issued are `CreateShader`, one
`ShaderSource` with count 1 whose single string is the source text followed by
its NUL terminator, `CompileShader` and the status query, and nothing else.
No lengths are passed, so the driver reads that string up to its first NUL:
the whole source text when it holds no NUL byte. -/
theorem NewShader_compile_ok (d : Driver) (src : String) (sType : Nat) (t : Trace) (h : Nat)
    (hh : d.CreateShader t sType = h) (h0 : h ≠ 0)
    (hst : d.GetShaderiv
      (t ++ [GlCall.CreateShader sType] ++ [GlCall.ShaderSource h 1 [(src ++ "\x00").data] none]
        ++ [GlCall.CompileShader h]) h gl.COMPILE_STATUS 0 ≠ gl.FALSE) :
    gfx.NewShader d src sType t =
      .ok ((some { handle := h }, none),
        t ++ [GlCall.CreateShader sType] ++ [GlCall.ShaderSource h 1 [(src ++ "\x00").data] none]
          ++ [GlCall.CompileShader h] ++ [GlCall.GetShaderiv h gl.COMPILE_STATUS]) ∧
    (gfx.Shader.mk h).handle ≠ 0 ∧
    (src ++ "\x00").data = src.data ++ [NUL] ∧
    gl.GoStr (src ++ "\x00").data =
      some (String.mk (src.data.takeWhile (fun c => c != NUL))) := by
  refine ⟨?_, h0, ?_, ?_⟩
  · subst hh
    unfold gfx.NewShader
    simp only [gl.CreateShader, gl.Strs, gl.ShaderSource, gl.CompileShader, List.length_singleton,
      one_ne_zero, if_false, List.map_cons, List.map_nil, Outcome.bind_ok]
    rw [gfx.getGlError_of_status_ne _ _ _ _ _ _ (by simpa [gl.GetShaderiv] using hst)]
    simp [gl.GetShaderiv]
  · rw [String.data_append]
    rfl
  · rw [String.data_append]
    exact GoStr_written src.data 1 (Or.inr Nat.one_pos)

/-- Witness of C9: `acceptingDriver` hands out the handle 7 and accepts the
compile of `void main() {}`. -/
theorem NewShader_compile_ok_witness :
    gfx.NewShader acceptingDriver "void main() \x7b\x7d" gl.VERTEX_SHADER [] =
      .ok ((some { handle := 7 }, none),
        [] ++ [GlCall.CreateShader gl.VERTEX_SHADER]
          ++ [GlCall.ShaderSource 7 1 [("void main() \x7b\x7d" ++ "\x00").data] none]
          ++ [GlCall.CompileShader 7] ++ [GlCall.GetShaderiv 7 gl.COMPILE_STATUS]) ∧
    (gfx.Shader.mk 7).handle ≠ 0 ∧
    ("void main() \x7b\x7d" ++ "\x00").data = "void main() \x7b\x7d".data ++ [NUL] ∧
    gl.GoStr ("void main() \x7b\x7d" ++ "\x00").data =
      some (String.mk ("void main() \x7b\x7d".data.takeWhile (fun c => c != NUL))) :=
  NewShader_compile_ok acceptingDriver "void main() \x7b\x7d" gl.VERTEX_SHADER [] 7 rfl
    (by decide) (by decide)

/-- C4 (evaluation at the failing input). A shader rejected by a driver that has
no info log for it (COMPILE_STATUS FALSE, INFO_LOG_LENGTH 0) does not yield a
nil Shader and an error: for every source text, stage kind and earlier trace
`NewShader` panics inside `gl.Str`, and so does `NewShaderFromFile` on a file
that is read without error. -/
theorem NewShader_rejected_without_log_panics (src file contents : String) (sType : Nat)
    (t : Trace) :
    gfx.NewShader silentDriver src sType t =
      .panic "str argument missing null terminator: " ∧
    gfx.NewShaderFromFile (fun _ => .ok contents) silentDriver file sType t =
      .panic "str argument missing null terminator: " := by
  constructor
  · unfold gfx.NewShader
    simp only [gl.CreateShader, gl.Strs, gl.ShaderSource, gl.CompileShader, List.length_singleton,
      one_ne_zero, if_false, List.map_cons, List.map_nil, Outcome.bind_ok]
    rw [gfx.getGlError_of_empty_log _ _ _ _ _ _ rfl rfl]
    rfl
  · unfold gfx.NewShaderFromFile gfx.ReadFile
    simp only [gl.CreateShader, gl.Strs, gl.ShaderSource, gl.CompileShader, List.length_singleton,
      one_ne_zero, if_false, List.map_cons, List.map_nil, Outcome.bind_ok]
    rw [gfx.getGlError_of_empty_log _ _ _ _ _ _ rfl rfl]
    rfl

/-- C5. An unreadable shader file yields the I/O error and never a compile
error. For every path for which `ioutil.ReadFile` fails with the error `e`,
`NewShaderFromFile` returns a nil Shader and exactly `e`, with the trace of
driver calls unchanged (no shader object created, no compile, no status
query). The message of `e` includes the requested path; `e` is not a value
built by `fmt.Errorf`, as the errors of `getGlError` are, and its message
starts with the failed step and not with the tag `SHADER::COMPILE_FAILURE::`. -/
theorem NewShaderFromFile_unreadable (fs : gfx.FileSystem) (d : Driver) (file : String)
    (sType : Nat) (t : Trace) (e : GoError) (he : gfx.ReadFile fs file = .error e) :
    gfx.NewShaderFromFile fs d file sType t = .ok ((none, some e), t) ∧
    file.data <:+: e.Error.data ∧
    (∀ a b : String, e ≠ Errorf a b) ∧
    ¬ ("SHADER::COMPILE_FAILURE::".data <+: e.Error.data) := by
  have hres : gfx.NewShaderFromFile fs d file sType t = .ok ((none, some e), t) := by
    unfold gfx.NewShaderFromFile
    rw [he]
  refine ⟨hres, ?_⟩
  unfold gfx.ReadFile at he
  cases hfs : fs file with
  | ok contents => rw [hfs] at he; cases he
  | error r =>
    obtain ⟨op, reason⟩ := r
    rw [hfs] at he
    injection he with he
    subst he
    refine ⟨⟨(op.name ++ " ").data, (": " ++ reason).data, ?_⟩, ?_, ?_⟩
    · simp [GoError.Error, String.data_append]
    · intro a b hab
      cases hab
    · have hS : "SHADER::COMPILE_FAILURE::".data =
          'S' :: "HADER::COMPILE_FAILURE::".data := rfl
      cases op
      · have hO : (GoError.PathError gfx.PathOp.Open.name file reason).Error.data =
            'o' :: ("pen " ++ file ++ ": " ++ reason).data := by
          simp only [GoError.Error, gfx.PathOp.name, String.data_append]
          rfl
        rw [hS, hO, List.cons_prefix_cons]
        rintro ⟨hc, -⟩
        exact absurd hc (by decide)
      · have hR : (GoError.PathError gfx.PathOp.Read.name file reason).Error.data =
            'r' :: ("ead " ++ file ++ ": " ++ reason).data := by
          simp only [GoError.Error, gfx.PathOp.name, String.data_append]
          rfl
        rw [hS, hR, List.cons_prefix_cons]
        rintro ⟨hc, -⟩
        exact absurd hc (by decide)

/-- Witness of C5: `shaders/basic.vert` in a file system where no file can be
opened. -/
theorem NewShaderFromFile_unreadable_witness :
    gfx.NewShaderFromFile emptyFileSystem acceptingDriver "shaders/basic.vert"
        gl.VERTEX_SHADER [] =
      .ok ((none, some (GoError.PathError "open" "shaders/basic.vert"
        "no such file or directory")), []) ∧
    "shaders/basic.vert".data <:+: (GoError.PathError "open" "shaders/basic.vert"
      "no such file or directory").Error.data ∧
    (∀ a b : String, GoError.PathError "open" "shaders/basic.vert"
      "no such file or directory" ≠ Errorf a b) ∧
    ¬ ("SHADER::COMPILE_FAILURE::".data <+: (GoError.PathError "open" "shaders/basic.vert"
      "no such file or directory").Error.data) :=
  NewShaderFromFile_unreadable emptyFileSystem acceptingDriver "shaders/basic.vert"
    gl.VERTEX_SHADER [] _ rfl

/-! ## Linking a program -/

/-- C6. A successful link returns a Program recording all input shaders. For
every sequence of shaders (empty or not) and earlier trace: when
`CreateProgram` answers a handle `h ≠ 0` and the LINK_STATUS query, asked after
the attachments and the link, leaves a value other than FALSE, `NewProgram`
returns a nil error and the Program of handle `h` whose shader list is the
input sequence, in order. The calls issued are `CreateProgram`, one
`AttachShader h` per input shader in order, `LinkProgram h`, and the status
query. -/
theorem NewProgram_link_ok (d : Driver) (shaders : List gfx.Shader) (t : Trace) (h : Nat)
    (hh : d.CreateProgram t = h) (h0 : h ≠ 0)
    (hst : d.GetProgramiv
      (t ++ [GlCall.CreateProgram] ++ shaders.map (fun sh => GlCall.AttachShader h sh.handle)
        ++ [GlCall.LinkProgram h]) h gl.LINK_STATUS 0 ≠ gl.FALSE) :
    ∃ prog : gfx.Program,
      gfx.NewProgram d shaders t =
        .ok ((some prog, none),
          t ++ [GlCall.CreateProgram] ++ shaders.map (fun sh => GlCall.AttachShader h sh.handle)
            ++ [GlCall.LinkProgram h] ++ [GlCall.GetProgramiv h gl.LINK_STATUS]) ∧
      prog.handle = h ∧ prog.handle ≠ 0 ∧ prog.shaders = shaders ∧
      prog.shaders.length = shaders.length := by
  refine ⟨{ handle := h, shaders := shaders }, ?_, rfl, h0, rfl, rfl⟩
  subst hh
  unfold gfx.NewProgram gfx.Program.Link
  simp only [gl.CreateProgram, gfx.Program.Attach_eq, gl.LinkProgram, List.nil_append]
  rw [gfx.getGlError_of_status_ne _ _ _ _ _ _ (by simpa [gl.GetProgramiv] using hst)]
  simp [gl.GetProgramiv]

/-- Witness of C6: a vertex and a fragment shader (handles 7 and 8) linked by
`acceptingDriver`, which hands out the program handle 1. -/
theorem NewProgram_link_ok_witness :
    ∃ prog : gfx.Program,
      gfx.NewProgram acceptingDriver [⟨7⟩, ⟨8⟩] [] =
        .ok ((some prog, none),
          [] ++ [GlCall.CreateProgram]
            ++ [gfx.Shader.mk 7, gfx.Shader.mk 8].map (fun sh => GlCall.AttachShader 1 sh.handle)
            ++ [GlCall.LinkProgram 1] ++ [GlCall.GetProgramiv 1 gl.LINK_STATUS]) ∧
      prog.handle = 1 ∧ prog.handle ≠ 0 ∧ prog.shaders = [⟨7⟩, ⟨8⟩] ∧
      prog.shaders.length = [gfx.Shader.mk 7, gfx.Shader.mk 8].length :=
  NewProgram_link_ok acceptingDriver [⟨7⟩, ⟨8⟩] [] 1 rfl (by decide) (by decide)

/-- C7 (counterexample). A shader that fails to attach does not make
`NewProgram` return an error: the same shader (handle 7) given twice, on
`acceptingDriver`. The driver rejects the second `AttachShader 1 7` (the shader
is already attached), LINK_STATUS is not FALSE, and `NewProgram` returns a
Program and a nil error. -/
theorem NewProgram_attach_failure_not_reported :
    acceptingDriver.AttachShaderFails [GlCall.CreateProgram, GlCall.AttachShader 1 7] 1 7 = true ∧
    gfx.NewProgram acceptingDriver [⟨7⟩, ⟨7⟩] [] =
      .ok ((some { handle := 1, shaders := [⟨7⟩, ⟨7⟩] }, none),
        [GlCall.CreateProgram, GlCall.AttachShader 1 7, GlCall.AttachShader 1 7,
         GlCall.LinkProgram 1, GlCall.GetProgramiv 1 gl.LINK_STATUS]) := by
  constructor
  · decide
  · rfl

/-- C7 (amended). A failed link with a log of length at least 2 returns an error
and no Program, and a rejected attachment changes nothing. For every sequence
of shaders and earlier trace: (1) when the LINK_STATUS query asked after the
link leaves FALSE, the INFO_LOG_LENGTH query leaves `n ≥ 2`, and the driver
stores the log `w` inside the buffer of `n` NUL bytes it is handed
(`w.length ≤ n`, a NUL left in the buffer), `NewProgram` returns a nil Program
and the error whose message is `PROGRAM::LINKING_FAILURE: ` followed by the log
text up to its first NUL; (2) the result of `NewProgram` is the same for
every way the driver may accept or reject the `AttachShader` calls. -/
theorem NewProgram_link_failure (d : Driver) (shaders : List gfx.Shader) (t : Trace)
    (h n : Nat) (w : List Char)
    (hh : d.CreateProgram t = h)
    (hst : d.GetProgramiv
      (t ++ [GlCall.CreateProgram] ++ shaders.map (fun sh => GlCall.AttachShader h sh.handle)
        ++ [GlCall.LinkProgram h]) h gl.LINK_STATUS 0 = gl.FALSE)
    (hlen : d.GetProgramiv
      (t ++ [GlCall.CreateProgram] ++ shaders.map (fun sh => GlCall.AttachShader h sh.handle)
        ++ [GlCall.LinkProgram h] ++ [GlCall.GetProgramiv h gl.LINK_STATUS])
      h gl.INFO_LOG_LENGTH 0 = (n : Int))
    (hn : 1 < n)
    (hlog : d.GetProgramInfoLog
      (t ++ [GlCall.CreateProgram] ++ shaders.map (fun sh => GlCall.AttachShader h sh.handle)
        ++ [GlCall.LinkProgram h] ++ [GlCall.GetProgramiv h gl.LINK_STATUS]
        ++ [GlCall.GetProgramiv h gl.INFO_LOG_LENGTH])
      h (n : Int) none (List.replicate n NUL) = w)
    (hw : w.length ≤ n) (hz : NUL ∈ w ∨ w.length < n) :
    gfx.NewProgram d shaders t =
      .ok ((none, some (GoError.errorString
          ("PROGRAM::LINKING_FAILURE" ++ ": " ++
            String.mk (w.takeWhile (fun c => c != NUL))))),
        t ++ [GlCall.CreateProgram] ++ shaders.map (fun sh => GlCall.AttachShader h sh.handle)
          ++ [GlCall.LinkProgram h] ++ [GlCall.GetProgramiv h gl.LINK_STATUS]
          ++ [GlCall.GetProgramiv h gl.INFO_LOG_LENGTH]
          ++ [GlCall.GetProgramInfoLog h (n : Int) none (List.replicate n NUL)]) ∧
    (∀ rejects : Trace → Nat → Nat → Bool,
      gfx.NewProgram { d with AttachShaderFails := rejects } shaders t =
        gfx.NewProgram d shaders t) := by
  refine ⟨?_, fun _ => rfl⟩
  subst hh
  unfold gfx.NewProgram gfx.Program.Link
  simp only [gl.CreateProgram, gfx.Program.Attach_eq, gl.LinkProgram, List.nil_append]
  rw [gfx.getGlError_of_written _ _ _ _ _ _
    (t ++ [GlCall.CreateProgram]
      ++ shaders.map (fun sh => GlCall.AttachShader (d.CreateProgram t) sh.handle)
      ++ [GlCall.LinkProgram (d.CreateProgram t)]
      ++ [GlCall.GetProgramiv (d.CreateProgram t) gl.LINK_STATUS])
    (t ++ [GlCall.CreateProgram]
      ++ shaders.map (fun sh => GlCall.AttachShader (d.CreateProgram t) sh.handle)
      ++ [GlCall.LinkProgram (d.CreateProgram t)]
      ++ [GlCall.GetProgramiv (d.CreateProgram t) gl.LINK_STATUS]
      ++ [GlCall.GetProgramiv (d.CreateProgram t) gl.INFO_LOG_LENGTH])
    (t ++ [GlCall.CreateProgram]
      ++ shaders.map (fun sh => GlCall.AttachShader (d.CreateProgram t) sh.handle)
      ++ [GlCall.LinkProgram (d.CreateProgram t)]
      ++ [GlCall.GetProgramiv (d.CreateProgram t) gl.LINK_STATUS]
      ++ [GlCall.GetProgramiv (d.CreateProgram t) gl.INFO_LOG_LENGTH]
      ++ [GlCall.GetProgramInfoLog (d.CreateProgram t) (n : Int) none (List.replicate n NUL)])
    n w
    (by simp only [gl.GetProgramiv, hst]) (by simp only [gl.GetProgramiv, hlen]) hn
    (by simp only [gl.GetProgramInfoLog, hlog]) hw hz]
  rfl

/-- Witness of C7 (amended): two shaders whose link `rejectingDriver` refuses
with the log `bad`. -/
theorem NewProgram_link_failure_witness :
    gfx.NewProgram rejectingDriver [⟨7⟩, ⟨8⟩] [] =
      .ok ((none, some (GoError.errorString "PROGRAM::LINKING_FAILURE: bad")),
        [GlCall.CreateProgram, GlCall.AttachShader 1 7, GlCall.AttachShader 1 8,
         GlCall.LinkProgram 1, GlCall.GetProgramiv 1 gl.LINK_STATUS,
         GlCall.GetProgramiv 1 gl.INFO_LOG_LENGTH,
         GlCall.GetProgramInfoLog 1 4 none [NUL, NUL, NUL, NUL]]) ∧
    (∀ rejects : Trace → Nat → Nat → Bool,
      gfx.NewProgram { rejectingDriver with AttachShaderFails := rejects } [⟨7⟩, ⟨8⟩] [] =
        gfx.NewProgram rejectingDriver [⟨7⟩, ⟨8⟩] []) :=
  NewProgram_link_failure rejectingDriver [⟨7⟩, ⟨8⟩] [] 1 4 ("bad".data ++ [NUL]) rfl rfl rfl
    (by decide) rfl (by decide) (by decide)

/-! ## Deleting a program -/

/-- C8 (counterexample). A shader attached twice is deleted twice: the program
of handle 1 built by `Attach(s)` and `Attach(s)` again, `s` of handle 7. Its
`Delete` issues `DeleteShader 7` two times before `DeleteProgram 1`. -/
theorem Delete_repeats_shader_attached_twice :
    (gfx.attachAll { handle := 1, shaders := [] } [[⟨7⟩], [⟨7⟩]] []).1.Delete [] =
      [GlCall.DeleteShader 7, GlCall.DeleteShader 7, GlCall.DeleteProgram 1] ∧
    ((gfx.attachAll { handle := 1, shaders := [] } [[⟨7⟩], [⟨7⟩]] []).1.Delete []).count
      (GlCall.DeleteShader 7) = 2 := by
  constructor
  · rfl
  · decide

/-- C8 (amended). Deleting a Program issues one `DeleteShader` per entry of its
shader list, then the program handle. For every Program built from
`Program{handle: h}` by any sequence of `Attach` calls, and every earlier
trace, the calls `Delete` adds are: one `DeleteShader` for each shader passed
to `Attach`, in attachment order, followed by `DeleteProgram h` as the last
call. So a handle is deleted as many times as it was attached (once when it
was attached once), and the program handle exactly once. -/
theorem Delete_cascade (h : Nat) (calls : List (List gfx.Shader)) (t0 t : Trace) :
    ∃ issued : Trace,
      (gfx.attachAll { handle := h, shaders := [] } calls t0).1.Delete t = t ++ issued ∧
      issued = calls.flatten.map (fun sh => GlCall.DeleteShader sh.handle)
        ++ [GlCall.DeleteProgram h] ∧
      (∀ x : Nat, issued.count (GlCall.DeleteShader x) =
        (calls.flatten.map gfx.Shader.handle).count x) ∧
      (∀ x : Nat, issued.count (GlCall.DeleteProgram x) = if x = h then 1 else 0) ∧
      issued.getLast? = some (GlCall.DeleteProgram h) := by
  refine ⟨_, ?_, rfl, ?_, ?_, ?_⟩
  · rw [gfx.attachAll_eq, gfx.Program.Delete_eq]
    simp
  · intro x
    rw [List.count_append, gfx.count_DeleteShader_map]
    simp [List.count_singleton]
  · intro x
    rw [List.count_append, gfx.count_DeleteProgram_map]
    by_cases hx : x = h
    · simp [hx]
    · have hne : h ≠ x := fun e => hx e.symm
      simp [List.count_singleton, hx, hne]
  · exact List.getLast?_concat _

/-! ## The frame -/

/-- C10 (evaluation of the code). The draw of a frame asks for 6 indices, not 3.
For every vertex array, window, program and earlier trace, `draw` issues
`ClearColor`, `Clear`, `UseProgram`, `BindVertexArray vao`, one
`DrawElements(TRIANGLES, 6, UNSIGNED_INT, nil)`, `BindVertexArray 0` and
`SwapBuffers`, in this order. The index list has 3 entries, and `makeVao`
uploads them as an element buffer of `4 * 3 = 12` bytes, so the count 6 differs
from the number of indices uploaded and the 24 bytes the draw reads exceed the
buffer. -/
theorem draw_asks_for_six_indices (d : Driver) (vao window : Nat) (program : gfx.Program)
    (t t0 : Trace) :
    Main.draw vao window program t =
      t ++ [GlCall.ClearColor ⟨2, 1⟩ ⟨3, 1⟩ ⟨3, 1⟩ ⟨10, 1⟩,
        GlCall.Clear (gl.COLOR_BUFFER_BIT ||| gl.DEPTH_BUFFER_BIT),
        GlCall.UseProgram program.handle,
        GlCall.BindVertexArray vao,
        GlCall.DrawElements gl.TRIANGLES 6 gl.UNSIGNED_INT 0,
        GlCall.BindVertexArray 0,
        GlCall.SwapBuffers window] ∧
    Main.indices.length = 3 ∧
    (∃ r : (Nat × Nat × Nat) × Trace,
      Main.makeVao d Main.vertices Main.indices t0 = .ok r ∧
      GlCall.BufferData gl.ELEMENT_ARRAY_BUFFER 12 (.uint32s Main.indices) gl.STATIC_DRAW ∈
        r.2) ∧
    (6 : Int) ≠ (Main.indices.length : Int) ∧
    (12 : Int) < 6 * 4 := by
  refine ⟨?_, rfl, ?_, by decide, by decide⟩
  · simp [Main.draw, Main.SwapBuffers, gl.ClearColor, gl.Clear, gfx.Program.Use, gl.UseProgram,
      gl.BindVertexArray, gl.DrawElements]
  · refine ⟨_, rfl, ?_⟩
    simp [gl.GenBuffers, gl.GenVertexArrays, gl.BindVertexArray, gl.BindBuffer,
      gl.BufferData, gl.VertexAttribPointerWithOffset, gl.EnableVertexAttribArray, Main.indices]

/-! ## Further properties of the compile path -/

/-- A rejected shader with a log of length at least 2 yields an error and no
Shader. For every source text, stage kind and earlier trace: when the
COMPILE_STATUS query asked after the compile leaves FALSE, the
INFO_LOG_LENGTH query leaves `n ≥ 2`,
and the driver stores the log `w` inside the buffer of `n` NUL bytes it is
handed (`w.length ≤ n`, a NUL left in the buffer), `NewShader` returns a nil
Shader and the error whose message is `SHADER::COMPILE_FAILURE::: ` followed by
the log text up to its first NUL. -/
theorem NewShader_compile_failure (d : Driver) (src : String) (sType : Nat) (t : Trace)
    (h n : Nat) (w : List Char)
    (hh : d.CreateShader t sType = h)
    (hst : d.GetShaderiv
      (t ++ [GlCall.CreateShader sType] ++ [GlCall.ShaderSource h 1 [(src ++ "\x00").data] none]
        ++ [GlCall.CompileShader h]) h gl.COMPILE_STATUS 0 = gl.FALSE)
    (hlen : d.GetShaderiv
      (t ++ [GlCall.CreateShader sType] ++ [GlCall.ShaderSource h 1 [(src ++ "\x00").data] none]
        ++ [GlCall.CompileShader h] ++ [GlCall.GetShaderiv h gl.COMPILE_STATUS])
      h gl.INFO_LOG_LENGTH 0 = (n : Int))
    (hn : 1 < n)
    (hlog : d.GetShaderInfoLog
      (t ++ [GlCall.CreateShader sType] ++ [GlCall.ShaderSource h 1 [(src ++ "\x00").data] none]
        ++ [GlCall.CompileShader h] ++ [GlCall.GetShaderiv h gl.COMPILE_STATUS]
        ++ [GlCall.GetShaderiv h gl.INFO_LOG_LENGTH])
      h (n : Int) none (List.replicate n NUL) = w)
    (hw : w.length ≤ n) (hz : NUL ∈ w ∨ w.length < n) :
    gfx.NewShader d src sType t =
      .ok ((none, some (GoError.errorString
          ("SHADER::COMPILE_FAILURE::" ++ ": " ++
            String.mk (w.takeWhile (fun c => c != NUL))))),
        t ++ [GlCall.CreateShader sType] ++ [GlCall.ShaderSource h 1 [(src ++ "\x00").data] none]
          ++ [GlCall.CompileShader h] ++ [GlCall.GetShaderiv h gl.COMPILE_STATUS]
          ++ [GlCall.GetShaderiv h gl.INFO_LOG_LENGTH]
          ++ [GlCall.GetShaderInfoLog h (n : Int) none (List.replicate n NUL)]) := by
  subst hh
  unfold gfx.NewShader
  simp only [gl.CreateShader, gl.Strs, gl.ShaderSource, gl.CompileShader, List.length_singleton,
    one_ne_zero, if_false, List.map_cons, List.map_nil, Outcome.bind_ok]
  rw [gfx.getGlError_of_written _ _ _ _ _ _
    (t ++ [GlCall.CreateShader sType]
      ++ [GlCall.ShaderSource (d.CreateShader t sType) 1 [(src ++ "\x00").data] none]
      ++ [GlCall.CompileShader (d.CreateShader t sType)]
      ++ [GlCall.GetShaderiv (d.CreateShader t sType) gl.COMPILE_STATUS])
    (t ++ [GlCall.CreateShader sType]
      ++ [GlCall.ShaderSource (d.CreateShader t sType) 1 [(src ++ "\x00").data] none]
      ++ [GlCall.CompileShader (d.CreateShader t sType)]
      ++ [GlCall.GetShaderiv (d.CreateShader t sType) gl.COMPILE_STATUS]
      ++ [GlCall.GetShaderiv (d.CreateShader t sType) gl.INFO_LOG_LENGTH])
    (t ++ [GlCall.CreateShader sType]
      ++ [GlCall.ShaderSource (d.CreateShader t sType) 1 [(src ++ "\x00").data] none]
      ++ [GlCall.CompileShader (d.CreateShader t sType)]
      ++ [GlCall.GetShaderiv (d.CreateShader t sType) gl.COMPILE_STATUS]
      ++ [GlCall.GetShaderiv (d.CreateShader t sType) gl.INFO_LOG_LENGTH]
      ++ [GlCall.GetShaderInfoLog (d.CreateShader t sType) (n : Int) none
            (List.replicate n NUL)])
    n w
    (by simp only [gl.GetShaderiv, hst]) (by simp only [gl.GetShaderiv, hlen]) hn
    (by simp only [gl.GetShaderInfoLog, hlog]) hw hz]
  rfl

/-- Witness of `NewShader_compile_failure`: a source `rejectingDriver` refuses
with the log `bad`. -/
theorem NewShader_compile_failure_witness :
    gfx.NewShader rejectingDriver "void main(" gl.VERTEX_SHADER [] =
      .ok ((none, some (GoError.errorString "SHADER::COMPILE_FAILURE::: bad")),
        [GlCall.CreateShader gl.VERTEX_SHADER,
         GlCall.ShaderSource 7 1 [("void main(" ++ "\x00").data] none,
         GlCall.CompileShader 7, GlCall.GetShaderiv 7 gl.COMPILE_STATUS,
         GlCall.GetShaderiv 7 gl.INFO_LOG_LENGTH,
         GlCall.GetShaderInfoLog 7 4 none [NUL, NUL, NUL, NUL]]) :=
  NewShader_compile_failure rejectingDriver "void main(" gl.VERTEX_SHADER [] 7 4
    ("bad".data ++ [NUL]) rfl rfl rfl (by decide) rfl (by decide) (by decide)

/-- A rejected shader file with a log of length at least 2 yields an error
naming the file and no Shader. For every path that `ioutil.ReadFile` reads as
`src`, stage kind and earlier trace: when the COMPILE_STATUS query asked after
the compile leaves FALSE, the INFO_LOG_LENGTH query leaves `n ≥ 2`, and the driver
stores the log `w` inside the buffer of `n` NUL bytes it is handed
(`w.length ≤ n`, a NUL left in the buffer), `NewShaderFromFile` returns a nil
Shader and the error whose message is `SHADER::COMPILE_FAILURE::`, the path,
`": "` and the log text up to its first NUL. -/
theorem NewShaderFromFile_compile_failure (fs : gfx.FileSystem) (d : Driver)
    (file src : String) (sType : Nat) (t : Trace) (h n : Nat) (w : List Char)
    (hfs : fs file = .ok src)
    (hh : d.CreateShader t sType = h)
    (hst : d.GetShaderiv
      (t ++ [GlCall.CreateShader sType] ++ [GlCall.ShaderSource h 1 [(src ++ "\x00").data] none]
        ++ [GlCall.CompileShader h]) h gl.COMPILE_STATUS 0 = gl.FALSE)
    (hlen : d.GetShaderiv
      (t ++ [GlCall.CreateShader sType] ++ [GlCall.ShaderSource h 1 [(src ++ "\x00").data] none]
        ++ [GlCall.CompileShader h] ++ [GlCall.GetShaderiv h gl.COMPILE_STATUS])
      h gl.INFO_LOG_LENGTH 0 = (n : Int))
    (hn : 1 < n)
    (hlog : d.GetShaderInfoLog
      (t ++ [GlCall.CreateShader sType] ++ [GlCall.ShaderSource h 1 [(src ++ "\x00").data] none]
        ++ [GlCall.CompileShader h] ++ [GlCall.GetShaderiv h gl.COMPILE_STATUS]
        ++ [GlCall.GetShaderiv h gl.INFO_LOG_LENGTH])
      h (n : Int) none (List.replicate n NUL) = w)
    (hw : w.length ≤ n) (hz : NUL ∈ w ∨ w.length < n) :
    gfx.NewShaderFromFile fs d file sType t =
      .ok ((none, some (GoError.errorString
          ("SHADER::COMPILE_FAILURE::" ++ file ++ ": " ++
            String.mk (w.takeWhile (fun c => c != NUL))))),
        t ++ [GlCall.CreateShader sType] ++ [GlCall.ShaderSource h 1 [(src ++ "\x00").data] none]
          ++ [GlCall.CompileShader h] ++ [GlCall.GetShaderiv h gl.COMPILE_STATUS]
          ++ [GlCall.GetShaderiv h gl.INFO_LOG_LENGTH]
          ++ [GlCall.GetShaderInfoLog h (n : Int) none (List.replicate n NUL)]) := by
  subst hh
  unfold gfx.NewShaderFromFile gfx.ReadFile
  simp only [hfs, gl.CreateShader, gl.Strs, gl.ShaderSource, gl.CompileShader,
    List.length_singleton, one_ne_zero, if_false, List.map_cons, List.map_nil, Outcome.bind_ok]
  rw [gfx.getGlError_of_written _ _ _ _ _ _
    (t ++ [GlCall.CreateShader sType]
      ++ [GlCall.ShaderSource (d.CreateShader t sType) 1 [(src ++ "\x00").data] none]
      ++ [GlCall.CompileShader (d.CreateShader t sType)]
      ++ [GlCall.GetShaderiv (d.CreateShader t sType) gl.COMPILE_STATUS])
    (t ++ [GlCall.CreateShader sType]
      ++ [GlCall.ShaderSource (d.CreateShader t sType) 1 [(src ++ "\x00").data] none]
      ++ [GlCall.CompileShader (d.CreateShader t sType)]
      ++ [GlCall.GetShaderiv (d.CreateShader t sType) gl.COMPILE_STATUS]
      ++ [GlCall.GetShaderiv (d.CreateShader t sType) gl.INFO_LOG_LENGTH])
    (t ++ [GlCall.CreateShader sType]
      ++ [GlCall.ShaderSource (d.CreateShader t sType) 1 [(src ++ "\x00").data] none]
      ++ [GlCall.CompileShader (d.CreateShader t sType)]
      ++ [GlCall.GetShaderiv (d.CreateShader t sType) gl.COMPILE_STATUS]
      ++ [GlCall.GetShaderiv (d.CreateShader t sType) gl.INFO_LOG_LENGTH]
      ++ [GlCall.GetShaderInfoLog (d.CreateShader t sType) (n : Int) none
            (List.replicate n NUL)])
    n w
    (by simp only [gl.GetShaderiv, hst]) (by simp only [gl.GetShaderiv, hlen]) hn
    (by simp only [gl.GetShaderInfoLog, hlog]) hw hz]
  rfl

/-- Witness of `NewShaderFromFile_compile_failure`: the file
`shaders/basic.frag`, read as `void main(`, which `rejectingDriver` refuses
with the log `bad`. -/
theorem NewShaderFromFile_compile_failure_witness :
    gfx.NewShaderFromFile (fun _ => .ok "void main(") rejectingDriver "shaders/basic.frag"
        gl.FRAGMENT_SHADER [] =
      .ok ((none, some (GoError.errorString
          "SHADER::COMPILE_FAILURE::shaders/basic.frag: bad")),
        [GlCall.CreateShader gl.FRAGMENT_SHADER,
         GlCall.ShaderSource 7 1 [("void main(" ++ "\x00").data] none,
         GlCall.CompileShader 7, GlCall.GetShaderiv 7 gl.COMPILE_STATUS,
         GlCall.GetShaderiv 7 gl.INFO_LOG_LENGTH,
         GlCall.GetShaderInfoLog 7 4 none [NUL, NUL, NUL, NUL]]) :=
  NewShaderFromFile_compile_failure (fun _ => .ok "void main(") rejectingDriver
    "shaders/basic.frag" "void main(" gl.FRAGMENT_SHADER [] 7 4 ("bad".data ++ [NUL])
    rfl rfl rfl rfl (by decide) rfl (by decide) (by decide)

end Stopengl
